import Mathlib

/-!
Verification of the provisioning-and-pipeline orchestrator
(`setup_pipeline.py`, `setup_gcp_looker.py`, `quick_setup.py`).

External effects are modelled by explicit environments:
a shell environment `String → CmdResult` mapping a command line to the
exit code / stdout / stderr the child process produces, a filesystem
`String → Bool` mapping a path to its existence, and file contents as
`List Char`.  Each embedded operation additionally returns the trace of
commands it actually issued, so "never attempts the remaining items"
properties are statable.
-/

namespace HealthPipe

/-- Outcome of one child process: exit status and the captured streams. -/
structure CmdResult where
  exitCode : Nat
  stdout : String
  stderr : String
  deriving DecidableEq, Repr

/-- What one call of `run_command` produced: the Python return value
(`result.stdout` on success, `None` on failure), the commands issued,
and the progress lines printed. -/
structure RunOutcome where
  result : Option String
  executed : List String
  log : List String
  deriving DecidableEq, Repr

/-- Embedding of `run_command(command, description)` (setup_pipeline.py,
lines 14-25): run the command once; on exit status zero return the
captured stdout, otherwise print the failure line with the captured
stderr and return `None`. -/
def run_command (env : String → CmdResult) (command description : String) : RunOutcome :=
  let r := env command
  if r.exitCode = 0 then
    { result := some r.stdout
      executed := [command]
      log := ["🔄 " ++ description ++ "...",
              "✅ " ++ description ++ " completed successfully"] }
  else
    { result := none
      executed := [command]
      log := ["🔄 " ++ description ++ "...",
              "❌ " ++ description ++ " failed: " ++ r.stderr] }

/-- The `for command, description in commands` loop of
`run_dbt_pipeline` (setup_pipeline.py, lines 128-132): run each step via
`run_command`; on the first step returning `None`, print the failing
description and return `False`.  Result: (overall success, description
of the failed step if any, commands actually executed). -/
def runSteps (env : String → CmdResult) :
    List (String × String) → Bool × Option String × List String
  | [] => (true, none, [])
  | (cmd, desc) :: rest =>
    match (run_command env cmd desc).result with
    | some _ =>
      let r := runSteps env rest
      (r.1, r.2.1, cmd :: r.2.2)
    | none => (false, some desc, [cmd])

/-- The fixed dbt step sequence of `run_dbt_pipeline`
(setup_pipeline.py, lines 120-126). -/
def dbtCommands : List (String × String) :=
  [("dbt deps", "Installing dbt dependencies"),
   ("dbt seed", "Loading CSV seed data"),
   ("dbt run", "Running dbt models"),
   ("dbt test", "Running dbt tests"),
   ("dbt docs generate", "Generating documentation")]

/-- Embedding of `run_dbt_pipeline` (setup_pipeline.py, lines 112-135). -/
def run_dbt_pipeline (env : String → CmdResult) : Bool × Option String × List String :=
  runSteps env dbtCommands

/-- The existence checks of `validate_dbt_project`
(setup_pipeline.py, lines 92-109), as a loop over the required paths in
check order: fail on the first missing path, never examining later
ones.  Result: (passed, first missing path if any, paths examined). -/
def checkPaths (fs : String → Bool) : List String → Bool × Option String × List String
  | [] => (true, none, [])
  | p :: rest =>
    if fs p then
      let r := checkPaths fs rest
      (r.1, r.2.1, p :: r.2.2)
    else (false, some p, [p])

/-- The two paths `validate_dbt_project` requires, in check order. -/
def requiredPaths : List String := ["my_project/dbt_project.yml", "profiles.yml"]

/-- Embedding of `validate_dbt_project` (setup_pipeline.py, lines 92-109). -/
def validate_dbt_project (fs : String → Bool) : Bool × Option String × List String :=
  checkPaths fs requiredPaths

/- ### Helper lemmas on the step loops -/

theorem runSteps_all_ok (env : String → CmdResult) :
    ∀ steps : List (String × String), (∀ s ∈ steps, (env s.1).exitCode = 0) →
    runSteps env steps = (true, none, steps.map Prod.fst) := by
  intro steps h
  induction steps with
  | nil => rfl
  | cons s rest ih =>
    obtain ⟨cmd, desc⟩ := s
    have h0 : (env cmd).exitCode = 0 := h (cmd, desc) (List.mem_cons_self _ _)
    have ih' := ih (fun x hx => h x (List.mem_cons_of_mem _ hx))
    simp [runSteps, run_command, h0, ih']

theorem runSteps_fail (env : String → CmdResult) :
    ∀ (pre : List (String × String)) (cmd desc : String)
      (post : List (String × String)),
    (∀ s ∈ pre, (env s.1).exitCode = 0) → (env cmd).exitCode ≠ 0 →
    runSteps env (pre ++ (cmd, desc) :: post) =
      (false, some desc, pre.map Prod.fst ++ [cmd]) := by
  intro pre cmd desc post hpre hc
  induction pre with
  | nil =>
    simp [runSteps, run_command, hc]
  | cons s rest ih =>
    obtain ⟨c, d⟩ := s
    have h0 : (env c).exitCode = 0 := hpre (c, d) (List.mem_cons_self _ _)
    have ih' := ih (fun x hx => hpre x (List.mem_cons_of_mem _ hx))
    simp [runSteps, run_command, h0, ih']

theorem checkPaths_fail (fs : String → Bool) :
    ∀ (pre : List String) (m : String) (post : List String),
    (∀ p ∈ pre, fs p = true) → fs m = false →
    checkPaths fs (pre ++ m :: post) = (false, some m, pre ++ [m]) := by
  intro pre m post hpre hm
  induction pre with
  | nil => simp [checkPaths, hm]
  | cons p rest ih =>
    have h0 : fs p = true := hpre p (List.mem_cons_self _ _)
    have ih' := ih (fun x hx => hpre x (List.mem_cons_of_mem _ hx))
    simp [checkPaths, h0, ih']

theorem checkPaths_all_ok (fs : String → Bool) :
    ∀ paths : List String, (∀ p ∈ paths, fs p = true) →
    checkPaths fs paths = (true, none, paths) := by
  intro paths h
  induction paths with
  | nil => rfl
  | cons p rest ih =>
    have h0 : fs p = true := h p (List.mem_cons_self _ _)
    have ih' := ih (fun x hx => h x (List.mem_cons_of_mem _ hx))
    simp [checkPaths, h0, ih']

/- ### Resource provisioner (setup_gcp_looker.py) -/

/-- Outcome of one `subprocess.run(cmd, check=True)` call in the
provisioner: either success, or a `CalledProcessError` whose `str(e)`
rendering is `errText`. -/
inductive CmdOutcome where
  | ok
  | err (errText : String)
  deriving DecidableEq, Repr

/-- The substring the provisioner greps for in `str(e)`. -/
def aeText : List Char := "already exists".toList

/-- A failure is fatal for dataset / service-account creation when its
error text does not contain `"already exists"` (the `in` check of
setup_gcp_looker.py, lines 87 and 120). -/
def isFatal : CmdOutcome → Bool
  | CmdOutcome.ok => false
  | CmdOutcome.err e => ! decide (aeText <:+: e.toList)

/-- The `for dataset in datasets` loop of `setup_bigquery_datasets`
(setup_gcp_looker.py, lines 81-93): issue the creation command for each
name; a failure whose `str(e)` contains "already exists" is logged and
skipped; any other failure returns `False` at once.  Result: (overall
success, dataset names actually attempted). -/
def createDatasets (env : String → CmdOutcome) : List String → Bool × List String
  | [] => (true, [])
  | d :: rest =>
    match env d with
    | CmdOutcome.ok =>
      let r := createDatasets env rest
      (r.1, d :: r.2)
    | CmdOutcome.err e =>
      if aeText <:+: e.toList then
        let r := createDatasets env rest
        (r.1, d :: r.2)
      else (false, [d])

/-- The fixed dataset list of `setup_bigquery_datasets`
(setup_gcp_looker.py, line 79). -/
def bqDatasets : List String := ["healthcare_data_dev", "healthcare_data_prod"]

/-- Embedding of `setup_bigquery_datasets` (setup_gcp_looker.py,
lines 75-93). -/
def setup_bigquery_datasets (env : String → CmdOutcome) : Bool × List String :=
  createDatasets env bqDatasets

/-- The `for role in roles` loop of `create_service_account`
(setup_gcp_looker.py, lines 134-147): every binding command is issued;
a failure is printed and the loop continues.  Result: each role paired
with whether its binding command succeeded. -/
def grantRoles (env : String → CmdOutcome) : List String → List (String × Bool)
  | [] => []
  | r :: rest =>
    (r, match env r with
        | CmdOutcome.ok => true
        | CmdOutcome.err _ => false) :: grantRoles env rest

/-- The fixed role list of `create_service_account`
(setup_gcp_looker.py, lines 127-132). -/
def saRoles : List String :=
  ["roles/bigquery.dataEditor",
   "roles/bigquery.jobUser",
   "roles/bigquery.dataViewer",
   "roles/bigquery.connectionUser"]

/-- Embedding of `create_service_account` (setup_gcp_looker.py,
lines 96-149): create the identity (treating an "already exists"
failure as success, any other failure as fatal — returning `None`
without touching the roles), then grant every role best-effort and
return the service-account email.  Result: (returned email if any, the
role attempts made). -/
def create_service_account (project_id : String) (saOutcome : CmdOutcome)
    (roleEnv : String → CmdOutcome) : Option String × List (String × Bool) :=
  let email := "dbt-healthcare-service@" ++ project_id ++ ".iam.gserviceaccount.com"
  match saOutcome with
  | CmdOutcome.ok => (some email, grantRoles roleEnv saRoles)
  | CmdOutcome.err e =>
    if aeText <:+: e.toList then (some email, grantRoles roleEnv saRoles)
    else (none, [])

/- ### Helper lemmas on the provisioner loops -/

theorem createDatasets_all_tolerated (env : String → CmdOutcome) :
    ∀ ds : List String, (∀ d ∈ ds, isFatal (env d) = false) →
    createDatasets env ds = (true, ds) := by
  intro ds h
  induction ds with
  | nil => rfl
  | cons d rest ih =>
    have hd : isFatal (env d) = false := h d (List.mem_cons_self _ _)
    have ih' := ih (fun x hx => h x (List.mem_cons_of_mem _ hx))
    cases he : env d with
    | ok => simp [createDatasets, he, ih']
    | err e =>
      have : aeText <:+: e.data := by
        have := hd
        rw [he] at this
        simpa [isFatal, String.toList] using this
      simp [createDatasets, he, this, ih']

theorem createDatasets_fail (env : String → CmdOutcome) :
    ∀ (pre : List String) (d : String) (post : List String),
    (∀ x ∈ pre, isFatal (env x) = false) → isFatal (env d) = true →
    createDatasets env (pre ++ d :: post) = (false, pre ++ [d]) := by
  intro pre d post hpre hd
  induction pre with
  | nil =>
    cases he : env d with
    | ok => rw [he] at hd; simp [isFatal] at hd
    | err e =>
      have hna : ¬ aeText <:+: e.data := by
        rw [he] at hd
        simpa [isFatal, String.toList] using hd
      simp [createDatasets, he, hna]
  | cons x rest ih =>
    have hx : isFatal (env x) = false := hpre x (List.mem_cons_self _ _)
    have ih' := ih (fun y hy => hpre y (List.mem_cons_of_mem _ hy))
    cases he : env x with
    | ok => simp [createDatasets, he, ih']
    | err e =>
      have : aeText <:+: e.data := by
        rw [he] at hx
        simpa [isFatal, String.toList] using hx
      simp [createDatasets, he, this, ih']

theorem grantRoles_attempts_all (env : String → CmdOutcome) :
    ∀ roles : List String, (grantRoles env roles).map Prod.fst = roles := by
  intro roles
  induction roles with
  | nil => rfl
  | cons r rest ih => simp [grantRoles, ih]

/- ### Config rewriter (quick_setup.py / setup_gcp_looker.py) -/

/-- The scanning loop of `replaceAll`, structurally recursive on a fuel
bound on the remaining length (each step consumes at least one
character, so fuel = initial length suffices). -/
def replaceAllGo (pat rep : List Char) : Nat → List Char → List Char
  | _, [] => []
  | 0, c :: s => c :: s
  | fuel + 1, c :: s =>
    if pat ≠ [] ∧ pat <+: (c :: s) then
      rep ++ replaceAllGo pat rep fuel ((c :: s).drop pat.length)
    else
      c :: replaceAllGo pat rep fuel s

/-- Python's `str.replace(pat, rep)` for a nonempty `pat`, on character
lists: replace every non-overlapping occurrence of `pat`, scanning left
to right; replacement text is not rescanned.  (For `pat = []` this is
the identity; both placeholder tokens below are nonempty, matching every
call site in the source.) -/
def replaceAll (pat rep s : List Char) : List Char :=
  replaceAllGo pat rep s.length s

/-- The project-identifier placeholder replaced first
(quick_setup.py line 25, setup_gcp_looker.py line 191). -/
def projectIdToken : List Char := "your-gcp-project-id".toList

/-- The credential-key-path placeholder replaced second
(quick_setup.py lines 26-29, setup_gcp_looker.py lines 192-195). -/
def keyPathToken : List Char :=
  "/Users/nezamsp8/Developer/python/dataEngineeringPractice/dbt-service-account-key.json".toList

/-- Embedding of `update_profiles_yml(project_id, key_file_path)`
(quick_setup.py lines 12-39 and the identical replacement logic of
setup_gcp_looker.py lines 176-204): if the profiles file does not exist,
return `None` without writing anything; otherwise replace the
project-identifier token, then the key-path token on the result, and
write the outcome back.  `some out` is the persisted content. -/
def update_profiles_yml (profilesFileExists : Bool) (content : List Char)
    (project_id key_file_path : List Char) : Option (List Char) :=
  if profilesFileExists then
    some (replaceAll keyPathToken key_file_path
            (replaceAll projectIdToken project_id content))
  else none

/-- `Replaced pat rep s out` : `out` is obtained from `s` by replacing
occurrences of `pat` with `rep` such that the text between consecutive
replaced occurrences (and before the first / after the last) contains no
occurrence of `pat` at all — i.e. every occurrence of `pat` in `s` that
survives the left-to-right non-overlapping scan has been replaced. -/
inductive Replaced (pat rep : List Char) : List Char → List Char → Prop where
  | free : ∀ s, ¬ pat <:+: s → Replaced pat rep s s
  | step : ∀ pre rest out, ¬ pat <:+: pre → Replaced pat rep rest out →
      Replaced pat rep (pre ++ pat ++ rest) (pre ++ rep ++ out)

theorem Replaced.cons (pat rep : List Char) (c : Char) (s out : List Char)
    (hnp : ¬ pat <+: c :: s) (h : Replaced pat rep s out) :
    Replaced pat rep (c :: s) (c :: out) := by
  cases h with
  | free s hfree =>
    refine Replaced.free _ ?_
    intro hinf
    rcases List.infix_cons_iff.mp hinf with hp | hi
    · exact hnp hp
    · exact hfree hi
  | step pre rest out hpre hrest =>
    have h1 : ¬ pat <:+: c :: pre := by
      intro hinf
      rcases List.infix_cons_iff.mp hinf with hp | hi
      · refine hnp (hp.trans ?_)
        have := List.prefix_append (c :: pre) (pat ++ rest)
        simp only [List.cons_append, List.append_assoc] at this ⊢
        exact this
      · exact hpre hi
    have := Replaced.step (c :: pre) rest out h1 hrest
    simp only [List.cons_append] at this
    exact this

theorem replaceAllGo_replaced (pat rep : List Char) (hne : pat ≠ []) :
    ∀ fuel s, s.length ≤ fuel → Replaced pat rep s (replaceAllGo pat rep fuel s) := by
  intro fuel
  induction fuel with
  | zero =>
    intro s hs
    have h0 : s = [] := List.eq_nil_of_length_eq_zero (Nat.le_zero.mp hs)
    subst h0
    rw [replaceAllGo]
    refine Replaced.free [] ?_
    simp [List.infix_nil, hne]
  | succ n ih =>
    intro s hs
    match s with
    | [] =>
      rw [replaceAllGo]
      refine Replaced.free [] ?_
      simp [List.infix_nil, hne]
    | c :: s' =>
      by_cases h : pat ≠ [] ∧ pat <+: (c :: s')
      · rw [replaceAllGo, if_pos h]
        obtain ⟨t, ht⟩ := h.2
        have hdrop : (c :: s').drop pat.length = t := by
          rw [← ht, List.drop_left]
        rw [hdrop]
        have hlen : t.length ≤ n := by
          have h1 : pat.length + t.length = s'.length + 1 := by
            have := congrArg List.length ht
            simpa using this
          have hp : 0 < pat.length := List.length_pos.mpr hne
          have h2 : s'.length ≤ n := Nat.lt_succ_iff.mp hs
          omega
        have hrest := ih t hlen
        have hfree : ¬ pat <:+: ([] : List Char) := by
          simp [List.infix_nil, hne]
        have := Replaced.step [] t _ hfree hrest
        simpa [ht] using this
      · rw [replaceAllGo, if_neg h]
        have hnp : ¬ pat <+: c :: s' := by
          intro hp
          exact h ⟨hne, hp⟩
        have h2 : s'.length ≤ n := Nat.lt_succ_iff.mp hs
        exact Replaced.cons pat rep c s' _ hnp (ih s' h2)

/-- `replaceAll` replaces every occurrence: its output is related to its
input by `Replaced`. -/
theorem replaceAll_replaced (pat rep : List Char) (hne : pat ≠ []) (s : List Char) :
    Replaced pat rep s (replaceAll pat rep s) :=
  replaceAllGo_replaced pat rep hne s.length s le_rfl

theorem replaceAllGo_of_no_occurrence (pat rep : List Char) :
    ∀ fuel s, ¬ pat <:+: s → replaceAllGo pat rep fuel s = s := by
  intro fuel
  induction fuel with
  | zero =>
    intro s _
    match s with
    | [] => rw [replaceAllGo]
    | c :: s' => rw [replaceAllGo]
  | succ n ih =>
    intro s hni
    match s with
    | [] => rw [replaceAllGo]
    | c :: s' =>
      have hnp : ¬ (pat ≠ [] ∧ pat <+: (c :: s')) := by
        rintro ⟨-, hp⟩
        exact hni hp.isInfix
      rw [replaceAllGo, if_neg hnp]
      have : ¬ pat <:+: s' := fun hi => hni (List.infix_cons hi)
      rw [ih s' this]

/-- If the pattern does not occur at all, `replaceAll` is the
identity. -/
theorem replaceAll_of_no_occurrence (pat rep s : List Char)
    (h : ¬ pat <:+: s) : replaceAll pat rep s = s :=
  replaceAllGo_of_no_occurrence pat rep s.length s h

/-- `rep` cannot create an occurrence of `pat`: whenever `pat` occurs in
`a ++ rep ++ b`, it already occurs entirely inside `a` or entirely
inside `b`.  In particular `rep` contains no occurrence of `pat`. -/
def SpliceSafe (pat rep : List Char) : Prop :=
  ∀ a b : List Char, pat <:+: a ++ rep ++ b → pat <:+: a ∨ pat <:+: b

/-- After a `Replaced` rewrite with a splice-safe replacement, the
pattern itself no longer occurs in the output. -/
theorem Replaced.no_pattern {pat rep : List Char} (hs : SpliceSafe pat rep)
    {s out : List Char} (h : Replaced pat rep s out) : ¬ pat <:+: out := by
  induction h with
  | free s hfree => exact hfree
  | step pre rest out hpre _ ih =>
    intro hinf
    rcases hs pre out hinf with h1 | h2
    · exact hpre h1
    · exact ih h2

/-- A `Replaced` rewrite with a replacement that is splice-safe for some
other pattern `q` cannot introduce `q` if `q` did not occur before. -/
theorem Replaced.no_other {pat rep : List Char} (q : List Char)
    (hq : SpliceSafe q rep) {s out : List Char} (h : Replaced pat rep s out) :
    ¬ q <:+: s → ¬ q <:+: out := by
  induction h with
  | free s _ => exact id
  | step pre rest out hpre _ ih =>
    intro hqs hinf
    have hqpre : ¬ q <:+: pre := by
      intro hi
      exact hqs (hi.trans ⟨[], pat ++ rest, by simp⟩)
    have hqrest : ¬ q <:+: rest := by
      intro hi
      exact hqs (hi.trans ⟨pre ++ pat, [], by simp⟩)
    rcases hq pre out hinf with h1 | h2
    · exact hqpre h1
    · exact ih hqrest h2

/-- If `pat` occurs in `rep ++ b` but `rep` and `pat` share no
character, the occurrence lies inside `b`. -/
theorem infix_drop_through (pat : List Char) (hp : pat ≠ []) :
    ∀ rep b : List Char, (∀ c ∈ rep, c ∉ pat) → pat <:+: rep ++ b →
    pat <:+: b := by
  intro rep
  induction rep with
  | nil => intro b _ h; simpa using h
  | cons c rep' ih =>
    intro b hd h
    rcases List.infix_cons_iff.mp h with hpre | hinf
    · obtain ⟨p0, pt, rfl⟩ : ∃ p0 pt, pat = p0 :: pt := by
        cases pat with
        | nil => exact absurd rfl hp
        | cons p0 pt => exact ⟨p0, pt, rfl⟩
      rw [List.cons_prefix_cons] at hpre
      have hc : c ∉ p0 :: pt := hd c (List.mem_cons_self _ _)
      rw [← hpre.1] at hc
      exact absurd (List.mem_cons_self _ _) hc
    · exact ih b (fun x hx => hd x (List.mem_cons_of_mem _ hx)) hinf

/-- A nonempty replacement sharing no character with the (nonempty)
pattern is splice-safe for it. -/
theorem spliceSafe_of_disjoint (pat rep : List Char) (hp : pat ≠ [])
    (hr : rep ≠ []) (hd : ∀ c ∈ rep, c ∉ pat) : SpliceSafe pat rep := by
  intro a
  induction a with
  | nil =>
    intro b h
    right
    exact infix_drop_through pat hp rep b hd (by simpa using h)
  | cons x a' ih =>
    intro b h
    have h' : pat <:+: x :: (a' ++ rep ++ b) := by simpa using h
    rcases List.infix_cons_iff.mp h' with hpre | hinf
    · by_cases hlen : pat.length ≤ (x :: a').length
      · left
        have : pat <+: (x :: a') ++ (rep ++ b) := by simpa using hpre
        exact ((List.isPrefix_append_of_length hlen).mp this).isInfix
      · exfalso
        obtain ⟨t, ht⟩ := hpre
        have ht' : pat ++ t = (x :: a') ++ (rep ++ b) := by simpa using ht
        have hdrop : pat.drop (x :: a').length ++ t = rep ++ b := by
          have := congrArg (List.drop (x :: a').length) ht'
          rw [List.drop_append_of_le_length (Nat.le_of_not_le hlen),
            List.drop_left] at this
          exact this
        have hne : pat.drop (x :: a').length ≠ [] := by
          intro h0
          have := List.drop_eq_nil_iff.mp h0
          omega
        obtain ⟨q0, qt, hq⟩ : ∃ q0 qt, pat.drop (x :: a').length = q0 :: qt := by
          cases hqq : pat.drop (x :: a').length with
          | nil => exact absurd hqq hne
          | cons q0 qt => exact ⟨q0, qt, rfl⟩
        obtain ⟨r0, rt, hrr⟩ : ∃ r0 rt, rep = r0 :: rt := by
          cases hrq : rep with
          | nil => exact absurd hrq hr
          | cons r0 rt => exact ⟨r0, rt, rfl⟩
        rw [hq, hrr] at hdrop
        have hq0 : q0 = r0 := by
          have := congrArg (fun l => l.head?) hdrop
          simpa using this
        have hq0mem : q0 ∈ pat := by
          have : q0 ∈ pat.drop (x :: a').length := by
            rw [hq]; exact List.mem_cons_self _ _
          exact List.mem_of_mem_drop this
        have : r0 ∉ pat := hd r0 (by rw [hrr]; exact List.mem_cons_self _ _)
        rw [← hq0] at this
        exact this hq0mem
    · rcases ih b (by simpa using hinf) with h1 | h2
      · exact Or.inl (List.infix_cons h1)
      · exact Or.inr h2

/-- Modelled from the spec: a simultaneous replacement of both
placeholder tokens in the original content — one left-to-right scan in
which, at each position, the first token (if it starts there) is
replaced by its value, otherwise the second token (if it starts there)
by its value, and replacement text is never rescanned.  Used only to
compare against the sequential rewrite the code performs. -/
def simulReplaceGo (t1 v1 t2 v2 : List Char) : Nat → List Char → List Char
  | _, [] => []
  | 0, c :: s => c :: s
  | fuel + 1, c :: s =>
    if t1 ≠ [] ∧ t1 <+: (c :: s) then
      v1 ++ simulReplaceGo t1 v1 t2 v2 fuel ((c :: s).drop t1.length)
    else if t2 ≠ [] ∧ t2 <+: (c :: s) then
      v2 ++ simulReplaceGo t1 v1 t2 v2 fuel ((c :: s).drop t2.length)
    else
      c :: simulReplaceGo t1 v1 t2 v2 fuel s

/-- See the doc comment above; one scan with fuel = input length. -/
def simulReplace (t1 v1 t2 v2 s : List Char) : List Char :=
  simulReplaceGo t1 v1 t2 v2 s.length s

/- ### Sample-data download (setup_pipeline.py, lines 28-44) -/

/-- Embedding of `os.path.dirname` (posixpath): everything up to and
including the last `/`, then — when the result is nonempty and not all
slashes — with trailing slashes stripped. -/
def dirnameL (p : List Char) : List Char :=
  let base := (p.reverse.takeWhile (fun c => c ≠ '/')).length
  let head := p.take (p.length - base)
  if head = [] then head
  else if head.all (fun c => c = '/') then head
  else (head.reverse.dropWhile (fun c => c = '/')).reverse

/-- Embedding of `download_csv_from_github` (setup_pipeline.py,
lines 28-44).  `status` is the HTTP status code; `raise_for_status`
raises for any status ≥ 400.  `os.makedirs` on the parent directory
raises `FileNotFoundError` when that directory string is empty (Python
semantics), and may otherwise fail according to the filesystem
environment `mkdirsOk`; `writeOk` models the final `open`/`write`.
Every exception is caught and reported as `False`. -/
def download_csv_from_github (status : Nat) (mkdirsOk : List Char → Bool)
    (writeOk : Bool) (local_path : List Char) : Bool :=
  if 400 ≤ status then false
  else
    let d := dirnameL local_path
    if d = [] then false
    else if mkdirsOk d = false then false
    else writeOk

/- ### Entry points -/

/-- Embedding of `setup_environment` (setup_pipeline.py, lines 47-61):
the two `pip install` commands are run via `run_command`, but their
results are discarded — the function returns regardless of failure.
The value returned here is the trace of commands issued. -/
def setup_environment (env : String → CmdResult) : List String :=
  (run_command env "pip install dbt-bigquery" "Installing dbt-bigquery").executed ++
  (run_command env "pip install requests" "Installing requests").executed

/-- Embedding of `main` (setup_pipeline.py, lines 138-166): exit 1 if
`my_project` is missing; run `setup_environment` (failures ignored);
exit 1 if validation fails; `download_sample_data` issues no commands;
run the dbt pipeline, exiting 1 on failure and 0 on success.  Result:
(process exit code, commands issued). -/
def pipeline_main (fs : String → Bool) (env : String → CmdResult) : Nat × List String :=
  if fs "my_project" = false then (1, [])
  else
    let t1 := setup_environment env
    if (validate_dbt_project fs).1 = false then (1, t1)
    else
      let r := run_dbt_pipeline env
      if r.1 then (0, t1 ++ r.2.2) else (1, t1 ++ r.2.2)

/-- The external world of `main` in setup_gcp_looker.py. -/
structure GcpEnv where
  gcloudInstalled : Bool
  projectInfo : Option String
  datasetEnv : String → CmdOutcome
  saOutcome : CmdOutcome
  roleEnv : String → CmdOutcome
  keyOutcome : Option String
  profilesFileExists : Bool
  profilesContent : List Char
  dbtTestOk : Bool

/-- Embedding of `main` (setup_gcp_looker.py, lines 268-333): each
provisioning stage that fails makes `main` return `False`, which the
entry point turns into exit status 1; a failing dbt connection test only
prints a warning and the run still finishes with exit status 0. -/
def gcp_main (e : GcpEnv) : Nat :=
  if e.gcloudInstalled = false then 1
  else
    match e.projectInfo with
    | none => 1
    | some pid =>
      if (createDatasets e.datasetEnv bqDatasets).1 = false then 1
      else
        match (create_service_account pid e.saOutcome e.roleEnv).1 with
        | none => 1
        | some _ =>
          match e.keyOutcome with
          | none => 1
          | some key =>
            match update_profiles_yml e.profilesFileExists e.profilesContent
                pid.toList key.toList with
            | none => 1
            | some _ => 0

/- ### Further helper lemmas -/

/-- When the service-account creation is fatal, `create_service_account`
returns `None` without attempting any role. -/
theorem create_service_account_fatal (pid : String) (sa : CmdOutcome)
    (env : String → CmdOutcome) (h : isFatal sa = true) :
    create_service_account pid sa env = (none, []) := by
  cases sa with
  | ok => simp [isFatal] at h
  | err e =>
    have : ¬ aeText <:+: e.data := by
      simpa [isFatal, String.toList] using h
    simp [create_service_account, this]

/-- When the service-account creation succeeds or merely "already
exists", `create_service_account` grants every role and returns the
service-account email. -/
theorem create_service_account_nonfatal (pid : String) (sa : CmdOutcome)
    (env : String → CmdOutcome) (h : isFatal sa = false) :
    create_service_account pid sa env =
      (some ("dbt-healthcare-service@" ++ pid ++ ".iam.gserviceaccount.com"),
       grantRoles env saRoles) := by
  cases sa with
  | ok => rfl
  | err e =>
    have : aeText <:+: e.data := by
      simpa [isFatal, String.toList] using h
    simp [create_service_account, this]

/-- A path without any slash has an empty `dirname`. -/
theorem dirnameL_eq_nil_of_no_slash (p : List Char)
    (h : ∀ c ∈ p, c ≠ '/') : dirnameL p = [] := by
  have htw : p.reverse.takeWhile (fun c => c ≠ '/') = p.reverse := by
    rw [List.takeWhile_eq_self_iff]
    intro a ha
    simpa using h a (List.mem_reverse.mp ha)
  rw [dirnameL]
  simp only [htw, List.length_reverse, Nat.sub_self, List.take_zero]
  simp

/- ### Sample environments used to instantiate the theorems -/

/-- A sample provisioner environment: the command for name `bad` fails
fatally, the one for `dup` fails with an "already exists" message,
everything else succeeds. -/
def sampleOutcomeEnv : String → CmdOutcome := fun s =>
  if s = "bad" then CmdOutcome.err "Command returned non-zero exit status 1."
  else if s = "dup" then CmdOutcome.err "error: dataset already exists"
  else CmdOutcome.ok

/-- A sample shell environment: the command `bad` exits 1 with stderr
`boom`, everything else exits 0 with stdout `out`. -/
def sampleCmdEnv : String → CmdResult := fun s =>
  if s = "bad" then ⟨1, "", "boom"⟩ else ⟨0, "out", ""⟩

/- ### The claims -/

/-- Claim C1: for every ordered sequence of dataset names,
`setup_bigquery_datasets`'s loop treats a creation failure whose error
text contains "already exists" as a non-fatal no-op and continues with
the remaining names, returning success overall; on any failure with
other error text it returns failure immediately and never attempts the
subsequently listed names. -/
theorem claim_C1_createDatasets :
    (∀ (env : String → CmdOutcome) (ds : List String),
      (∀ d ∈ ds, isFatal (env d) = false) →
      createDatasets env ds = (true, ds)) ∧
    (∀ (env : String → CmdOutcome) (pre : List String) (d : String)
        (post : List String),
      (∀ x ∈ pre, isFatal (env x) = false) → isFatal (env d) = true →
      createDatasets env (pre ++ d :: post) = (false, pre ++ [d])) ∧
    setup_bigquery_datasets = fun env => createDatasets env bqDatasets :=
  ⟨createDatasets_all_tolerated, createDatasets_fail, rfl⟩

/-- Witness for C1: a run where one dataset "already exists" still
succeeds and attempts everything, and a run with an unrelated failure
stops at the failing name. -/
theorem claim_C1_witness :
    ((∀ d ∈ (["dup", "fresh"] : List String), isFatal (sampleOutcomeEnv d) = false) ∧
      createDatasets sampleOutcomeEnv ["dup", "fresh"] = (true, ["dup", "fresh"])) ∧
    ((∀ x ∈ (["dup"] : List String), isFatal (sampleOutcomeEnv x) = false) ∧
      isFatal (sampleOutcomeEnv "bad") = true ∧
      createDatasets sampleOutcomeEnv (["dup"] ++ "bad" :: ["never"]) =
        (false, ["dup", "bad"])) :=
  ⟨⟨by decide, claim_C1_createDatasets.1 sampleOutcomeEnv ["dup", "fresh"] (by decide)⟩,
   ⟨by decide, by decide,
    claim_C1_createDatasets.2.1 sampleOutcomeEnv ["dup"] "bad" ["never"]
      (by decide) (by decide)⟩⟩

/-- Claim C2: for every ordered sequence of pipeline steps,
`run_dbt_pipeline`'s loop executes the steps strictly in order; on the
first step whose command fails it stops immediately, returns failure
identifying that step's description, and no subsequent step is
executed; when every step succeeds it returns success after the last
step. -/
theorem claim_C2_pipeline_steps :
    (∀ (env : String → CmdResult) (steps : List (String × String)),
      (∀ s ∈ steps, (env s.1).exitCode = 0) →
      runSteps env steps = (true, none, steps.map Prod.fst)) ∧
    (∀ (env : String → CmdResult) (pre : List (String × String))
        (cmd desc : String) (post : List (String × String)),
      (∀ s ∈ pre, (env s.1).exitCode = 0) → (env cmd).exitCode ≠ 0 →
      runSteps env (pre ++ (cmd, desc) :: post) =
        (false, some desc, pre.map Prod.fst ++ [cmd])) ∧
    run_dbt_pipeline = fun env => runSteps env dbtCommands :=
  ⟨runSteps_all_ok, runSteps_fail, rfl⟩

/-- Witness for C2: with steps `[A, B, C]` where `B`'s command fails,
`A` then `B` run, `C` never runs, and the failure names `B`; an
all-success run returns success with every command executed. -/
theorem claim_C2_witness :
    ((∀ s ∈ ([("a", "A")] : List (String × String)),
        (sampleCmdEnv s.1).exitCode = 0) ∧
      (sampleCmdEnv "bad").exitCode ≠ 0 ∧
      runSteps sampleCmdEnv ([("a", "A")] ++ ("bad", "B") :: [("c", "C")]) =
        (false, some "B", ["a", "bad"])) ∧
    ((∀ s ∈ ([("a", "A"), ("c", "C")] : List (String × String)),
        (sampleCmdEnv s.1).exitCode = 0) ∧
      runSteps sampleCmdEnv [("a", "A"), ("c", "C")] =
        (true, none, ["a", "c"])) :=
  ⟨⟨by decide, by decide,
    claim_C2_pipeline_steps.2.1 sampleCmdEnv [("a", "A")] "bad" "B" [("c", "C")]
      (by decide) (by decide)⟩,
   ⟨by decide,
    claim_C2_pipeline_steps.1 sampleCmdEnv [("a", "A"), ("c", "C")] (by decide)⟩⟩

/-- Claim C6: `run_command` returns the captured stdout exactly when the
child exits with status zero, and fails — returning `None` with the
description and captured stderr in the printed report — exactly when the
exit status is non-zero; the outcome depends only on zero versus
non-zero, and the command is attempted exactly once. -/
theorem claim_C6_run_command :
    (∀ (env : String → CmdResult) (cmd desc : String),
      (run_command env cmd desc).executed = [cmd]) ∧
    (∀ (env : String → CmdResult) (cmd desc : String),
      (env cmd).exitCode = 0 →
      run_command env cmd desc =
        ⟨some (env cmd).stdout, [cmd],
         ["🔄 " ++ desc ++ "...", "✅ " ++ desc ++ " completed successfully"]⟩) ∧
    (∀ (env : String → CmdResult) (cmd desc : String),
      (env cmd).exitCode ≠ 0 →
      run_command env cmd desc =
        ⟨none, [cmd],
         ["🔄 " ++ desc ++ "...",
          "❌ " ++ desc ++ " failed: " ++ (env cmd).stderr]⟩) := by
  refine ⟨?_, ?_, ?_⟩
  · intro env cmd desc
    rw [run_command]
    by_cases h : (env cmd).exitCode = 0 <;> simp [h]
  · intro env cmd desc h
    simp [run_command, h]
  · intro env cmd desc h
    simp [run_command, h]

/-- Witness for C6: a zero-exit command yields its stdout, a non-zero
one yields `None` with the stderr in the report; both issue exactly one
command. -/
theorem claim_C6_witness :
    (sampleCmdEnv "a").exitCode = 0 ∧
    run_command sampleCmdEnv "a" "A" =
      ⟨some "out", ["a"], ["🔄 A...", "✅ A completed successfully"]⟩ ∧
    (sampleCmdEnv "bad").exitCode ≠ 0 ∧
    run_command sampleCmdEnv "bad" "B" =
      ⟨none, ["bad"], ["🔄 B...", "❌ B failed: boom"]⟩ ∧
    (run_command sampleCmdEnv "bad" "B").executed = ["bad"] :=
  ⟨by decide,
   claim_C6_run_command.2.1 sampleCmdEnv "a" "A" (by decide),
   by decide,
   claim_C6_run_command.2.2 sampleCmdEnv "bad" "B" (by decide),
   claim_C6_run_command.1 sampleCmdEnv "bad" "B"⟩

/-- Claim C7: `validate_dbt_project` fails identifying the first
required path that is missing (in check order) and does not examine the
remaining required paths after it. -/
theorem claim_C7_validate :
    (∀ (fs : String → Bool) (pre : List String) (m : String)
        (post : List String),
      (∀ p ∈ pre, fs p = true) → fs m = false →
      checkPaths fs (pre ++ m :: post) = (false, some m, pre ++ [m])) ∧
    (∀ fs : String → Bool, fs "my_project/dbt_project.yml" = false →
      validate_dbt_project fs =
        (false, some "my_project/dbt_project.yml",
         ["my_project/dbt_project.yml"])) ∧
    (∀ fs : String → Bool, fs "my_project/dbt_project.yml" = true →
      fs "profiles.yml" = false →
      validate_dbt_project fs =
        (false, some "profiles.yml",
         ["my_project/dbt_project.yml", "profiles.yml"])) := by
  refine ⟨checkPaths_fail, ?_, ?_⟩
  · intro fs h1
    have := checkPaths_fail fs [] "my_project/dbt_project.yml" ["profiles.yml"]
      (by simp) h1
    simpa [validate_dbt_project, requiredPaths] using this
  · intro fs h1 h2
    have := checkPaths_fail fs ["my_project/dbt_project.yml"] "profiles.yml" []
      (by simpa using h1) h2
    simpa [validate_dbt_project, requiredPaths] using this

/-- Witness for C7: a filesystem where only `profiles.yml` is missing
makes validation fail naming `profiles.yml` after examining both paths
in order. -/
theorem claim_C7_witness :
    ((fun p => if p = "profiles.yml" then false else true)
        "my_project/dbt_project.yml" = true) ∧
    ((fun p => if p = "profiles.yml" then false else true) "profiles.yml" = false) ∧
    validate_dbt_project (fun p => if p = "profiles.yml" then false else true) =
      (false, some "profiles.yml",
       ["my_project/dbt_project.yml", "profiles.yml"]) :=
  ⟨by decide, by decide,
   claim_C7_validate.2.2 (fun p => if p = "profiles.yml" then false else true)
     (by decide) (by decide)⟩

/-- Claim C3: `update_profiles_yml` fails without modifying anything
when the configuration file does not exist; otherwise it succeeds, and
every occurrence of each placeholder token has been replaced by its
literal value across the whole content (the project token throughout the
original content, then the key-path token throughout the result, each
left-to-right scan leaving no occurrence unreplaced between the
rewritten ones); a token that never occurs leaves the content unchanged
and the call still succeeds. -/
theorem claim_C3_rewrite :
    (∀ content p k : List Char, update_profiles_yml false content p k = none) ∧
    (∀ content p k : List Char, update_profiles_yml true content p k =
      some (replaceAll keyPathToken k (replaceAll projectIdToken p content))) ∧
    (∀ content p k : List Char,
      Replaced projectIdToken p content (replaceAll projectIdToken p content) ∧
      Replaced keyPathToken k (replaceAll projectIdToken p content)
        (replaceAll keyPathToken k (replaceAll projectIdToken p content))) ∧
    (∀ content p k : List Char,
      ¬ projectIdToken <:+: content → ¬ keyPathToken <:+: content →
      update_profiles_yml true content p k = some content) := by
  refine ⟨fun _ _ _ => rfl, fun _ _ _ => rfl, ?_, ?_⟩
  · intro content p k
    exact ⟨replaceAll_replaced _ _ (by decide) _, replaceAll_replaced _ _ (by decide) _⟩
  · intro content p k h1 h2
    rw [update_profiles_yml, if_pos rfl, replaceAll_of_no_occurrence _ _ _ h1,
      replaceAll_of_no_occurrence _ _ _ h2]

/-- Witness for C3: a missing file fails; a content with one project
token is rewritten; a content with no token at all passes through
unchanged, successfully. -/
theorem claim_C3_witness :
    update_profiles_yml false ("abc".toList) ("p".toList) ("k".toList) = none ∧
    (¬ projectIdToken <:+: "profile: demo".toList) ∧
    (¬ keyPathToken <:+: "profile: demo".toList) ∧
    update_profiles_yml true ("profile: demo".toList) ("p".toList) ("k".toList) =
      some ("profile: demo".toList) := by
  refine ⟨claim_C3_rewrite.1 ("abc".toList) ("p".toList) ("k".toList),
    by decide, by decide, ?_⟩
  exact claim_C3_rewrite.2.2.2 ("profile: demo".toList) ("p".toList) ("k".toList)
    (by decide) (by decide)

/-- Claim C4: for every ordered sequence of roles, the role-assignment
loop of `create_service_account` attempts a binding command for every
role even after an earlier role's binding failed, and the overall call
does not raise a fatal error — it still returns the service-account
email. -/
theorem claim_C4_grantRoles :
    (∀ (env : String → CmdOutcome) (roles : List String),
      (grantRoles env roles).map Prod.fst = roles) ∧
    (∀ (pid : String) (sa : CmdOutcome) (env : String → CmdOutcome),
      isFatal sa = false →
      create_service_account pid sa env =
        (some ("dbt-healthcare-service@" ++ pid ++ ".iam.gserviceaccount.com"),
         grantRoles env saRoles)) :=
  ⟨grantRoles_attempts_all, create_service_account_nonfatal⟩

/-- Witness for C4: with the middle role's binding failing, every role
of the source's list is still attempted and the call returns the email. -/
theorem claim_C4_witness :
    (grantRoles (fun r => if r = "roles/bigquery.jobUser"
        then CmdOutcome.err "binding failed" else CmdOutcome.ok) saRoles).map
      Prod.fst = saRoles ∧
    isFatal CmdOutcome.ok = false ∧
    create_service_account "acme-health" CmdOutcome.ok
        (fun r => if r = "roles/bigquery.jobUser"
          then CmdOutcome.err "binding failed" else CmdOutcome.ok) =
      (some "dbt-healthcare-service@acme-health.iam.gserviceaccount.com",
       [("roles/bigquery.dataEditor", true), ("roles/bigquery.jobUser", false),
        ("roles/bigquery.dataViewer", true),
        ("roles/bigquery.connectionUser", true)]) := by
  refine ⟨claim_C4_grantRoles.1 _ saRoles, by decide, ?_⟩
  have := claim_C4_grantRoles.2 "acme-health" CmdOutcome.ok
    (fun r => if r = "roles/bigquery.jobUser"
      then CmdOutcome.err "binding failed" else CmdOutcome.ok) (by decide)
  rw [this]
  decide

/-- Claim C9: the config rewriter applies its substitutions
sequentially — project-identifier token first, then key-path token, the
second replacement operating on the result of the first — and for some
inputs (the value substituted for the first token containing the second
token) the outcome differs from a simultaneous replacement of both
tokens in the original content. -/
theorem claim_C9_sequential_order :
    (∀ content p k : List Char, update_profiles_yml true content p k =
      some (replaceAll keyPathToken k (replaceAll projectIdToken p content))) ∧
    update_profiles_yml true projectIdToken keyPathToken ("k".toList) =
      some ("k".toList) ∧
    simulReplace projectIdToken keyPathToken keyPathToken ("k".toList)
      projectIdToken = keyPathToken ∧
    ("k".toList : List Char) ≠ keyPathToken :=
  ⟨fun _ _ _ => rfl, by decide, by decide, by decide⟩

/-- Claim C10: when `local_path` has no directory component, the
download reports failure even though the HTTP retrieval succeeded with a
2xx status, because `os.makedirs` on the empty parent-directory string
raises and the exception is caught and reported as a download failure. -/
theorem claim_C10_download :
    ∀ (status : Nat) (mkdirsOk : List Char → Bool) (writeOk : Bool)
      (local_path : List Char),
      (∀ c ∈ local_path, c ≠ '/') → 200 ≤ status → status < 300 →
      download_csv_from_github status mkdirsOk writeOk local_path = false := by
  intro status mkdirsOk writeOk local_path hns h2 h3
  have h4 : ¬ 400 ≤ status := by omega
  rw [download_csv_from_github, if_neg h4]
  simp [dirnameL_eq_nil_of_no_slash local_path hns]

/-- Witness for C10: a 200 response written to `patients.csv` (no
directory part) still fails, whatever the filesystem would do. -/
theorem claim_C10_witness :
    (∀ c ∈ "patients.csv".toList, c ≠ '/') ∧ 200 ≤ 200 ∧ 200 < 300 ∧
    download_csv_from_github 200 (fun _ => true) true
      ("patients.csv".toList) = false :=
  ⟨by decide, by decide, by decide,
   claim_C10_download 200 (fun _ => true) true ("patients.csv".toList)
     (by decide) (by decide) (by decide)⟩

/-- A shell environment whose `pip install dbt-bigquery` fails (exit 1)
while every other command succeeds. -/
def pipFailEnv : String → CmdResult := fun c =>
  if c = "pip install dbt-bigquery" then ⟨1, "", "pip failed"⟩
  else ⟨0, "ok", ""⟩

/-- Counterexample to claim C5 as stated: `pip install dbt-bigquery`
exits non-zero (and is not classified "already exists"), yet the run
does not stop — every later command, including the whole dbt pipeline,
is still executed, and the process exits 0, so the failure is neither
fatal nor surfaced as a non-zero exit. -/
theorem claim_C5_counterexample :
    (pipFailEnv "pip install dbt-bigquery").exitCode ≠ 0 ∧
    pipeline_main (fun _ => true) pipFailEnv =
      (0, ["pip install dbt-bigquery", "pip install requests", "dbt deps",
           "dbt seed", "dbt run", "dbt test", "dbt docs generate"]) :=
  ⟨by decide, by decide⟩

/-- Claim C5 as amended: the checked fatal errors do abort the current
run with a non-zero exit — a missing project directory, a failed
validation (before any dbt step runs), a failed dbt step, a missing
gcloud binary, an unknown project, a fatal dataset-creation failure, a
fatal service-account failure, a failed key creation and a missing
profiles file all exit 1 — but besides the "already exists"
classification and non-fatal role bindings, dependency-installation
command failures during environment setup and a failing dbt connection
test are also swallowed: they are only printed and the run continues
(see the counterexample), the latter shown here by a run that exits 0
with the connection test failing. -/
theorem claim_C5_amended :
    (∀ (fs : String → Bool) (env : String → CmdResult),
      fs "my_project" = false → pipeline_main fs env = (1, [])) ∧
    (∀ (fs : String → Bool) (env : String → CmdResult),
      fs "my_project" = true → (validate_dbt_project fs).1 = false →
      pipeline_main fs env = (1, setup_environment env)) ∧
    (∀ (fs : String → Bool) (env : String → CmdResult),
      fs "my_project" = true → (validate_dbt_project fs).1 = true →
      (run_dbt_pipeline env).1 = false →
      pipeline_main fs env =
        (1, setup_environment env ++ (run_dbt_pipeline env).2.2)) ∧
    (∀ e : GcpEnv, e.gcloudInstalled = false → gcp_main e = 1) ∧
    (∀ e : GcpEnv, e.gcloudInstalled = true → e.projectInfo = none →
      gcp_main e = 1) ∧
    (∀ (e : GcpEnv) (pid : String), e.gcloudInstalled = true →
      e.projectInfo = some pid →
      (createDatasets e.datasetEnv bqDatasets).1 = false → gcp_main e = 1) ∧
    (∀ (e : GcpEnv) (pid : String), e.gcloudInstalled = true →
      e.projectInfo = some pid →
      (createDatasets e.datasetEnv bqDatasets).1 = true →
      isFatal e.saOutcome = true → gcp_main e = 1) ∧
    (∀ (e : GcpEnv) (pid : String), e.gcloudInstalled = true →
      e.projectInfo = some pid →
      (createDatasets e.datasetEnv bqDatasets).1 = true →
      isFatal e.saOutcome = false → e.keyOutcome = none → gcp_main e = 1) ∧
    (∀ (e : GcpEnv) (pid key : String), e.gcloudInstalled = true →
      e.projectInfo = some pid →
      (createDatasets e.datasetEnv bqDatasets).1 = true →
      isFatal e.saOutcome = false → e.keyOutcome = some key →
      e.profilesFileExists = false → gcp_main e = 1) ∧
    (∀ (e : GcpEnv) (pid key : String), e.gcloudInstalled = true →
      e.projectInfo = some pid →
      (createDatasets e.datasetEnv bqDatasets).1 = true →
      isFatal e.saOutcome = false → e.keyOutcome = some key →
      e.profilesFileExists = true → gcp_main e = 0) := by
  refine ⟨?_, ?_, ?_, ?_, ?_, ?_, ?_, ?_, ?_, ?_⟩
  · intro fs env h
    simp [pipeline_main, h]
  · intro fs env h1 h2
    simp [pipeline_main, h1, h2]
  · intro fs env h1 h2 h3
    simp [pipeline_main, h1, h2, h3]
  · intro e h
    simp [gcp_main, h]
  · intro e h1 h2
    simp [gcp_main, h1, h2]
  · intro e pid h1 h2 h3
    simp [gcp_main, h1, h2, h3]
  · intro e pid h1 h2 h3 h4
    simp [gcp_main, h1, h2, h3, create_service_account_fatal pid _ _ h4]
  · intro e pid h1 h2 h3 h4 h5
    simp [gcp_main, h1, h2, h3, h5, create_service_account_nonfatal pid _ _ h4]
  · intro e pid key h1 h2 h3 h4 h5 h6
    simp [gcp_main, h1, h2, h3, h5, h6, update_profiles_yml,
      create_service_account_nonfatal pid _ _ h4]
  · intro e pid key h1 h2 h3 h4 h5 h6
    simp [gcp_main, h1, h2, h3, h5, h6, update_profiles_yml,
      create_service_account_nonfatal pid _ _ h4]

/-- Witness for the amended C5: a missing project directory exits 1
with nothing run; a fully provisioned GCP run with a failing dbt
connection test still exits 0. -/
theorem claim_C5_witness :
    ((fun _ => false : String → Bool) "my_project" = false) ∧
    pipeline_main (fun _ => false) sampleCmdEnv = (1, []) ∧
    gcp_main ⟨true, some "acme-health", fun _ => CmdOutcome.ok, CmdOutcome.ok,
      fun _ => CmdOutcome.ok, some "key.json", true, "profiles: x".toList,
      false⟩ = 0 := by
  refine ⟨rfl, claim_C5_amended.1 (fun _ => false) sampleCmdEnv rfl, ?_⟩
  exact claim_C5_amended.2.2.2.2.2.2.2.2.2
    ⟨true, some "acme-health", fun _ => CmdOutcome.ok, CmdOutcome.ok,
      fun _ => CmdOutcome.ok, some "key.json", true, "profiles: x".toList, false⟩
    "acme-health" "key.json" rfl rfl (by decide) (by decide) rfl rfl

/-- Counterexample to claim C8 as stated: rewriting a file that is
exactly the project-identifier token with a substituted value that
itself contains that token succeeds, yet the persisted content still
contains the placeholder token. -/
theorem claim_C8_counterexample :
    update_profiles_yml true ("your-gcp-project-id".toList)
      ("xyour-gcp-project-idx".toList) ("k".toList) =
      some ("xyour-gcp-project-idx".toList) ∧
    projectIdToken <:+: "xyour-gcp-project-idx".toList :=
  ⟨by decide, by decide⟩

/-- Claim C8 as amended: for every initial configuration-file content,
after a successful rewrite the persisted content contains no unresolved
placeholder token, provided the substituted values cannot create a
token occurrence when spliced into surrounding text (`SpliceSafe`; in
particular the values must not contain a token — otherwise tokens can
survive, as the counterexample shows). -/
theorem claim_C8_amended (content p k : List Char)
    (h1 : SpliceSafe projectIdToken p) (h2 : SpliceSafe projectIdToken k)
    (h3 : SpliceSafe keyPathToken k) :
    ∀ out, update_profiles_yml true content p k = some out →
      ¬ projectIdToken <:+: out ∧ ¬ keyPathToken <:+: out := by
  intro out hout
  have hx : replaceAll keyPathToken k (replaceAll projectIdToken p content) = out := by
    simpa [update_profiles_yml] using hout
  have hmid : Replaced projectIdToken p content
      (replaceAll projectIdToken p content) :=
    replaceAll_replaced _ _ (by decide) _
  have hm1 : ¬ projectIdToken <:+: replaceAll projectIdToken p content :=
    Replaced.no_pattern h1 hmid
  have hrep2 : Replaced keyPathToken k (replaceAll projectIdToken p content) out := by
    rw [← hx]
    exact replaceAll_replaced _ _ (by decide) _
  exact ⟨Replaced.no_other projectIdToken h2 hrep2 hm1,
    Replaced.no_pattern h3 hrep2⟩

/-- Witness for the amended C8: digit-only substituted values share no
character with either token, so they are splice-safe, and the rewritten
content indeed contains no token. -/
theorem claim_C8_witness :
    update_profiles_yml true ("a your-gcp-project-id b".toList)
      ("777".toList) ("123".toList) = some ("a 777 b".toList) ∧
    ¬ projectIdToken <:+: "a 777 b".toList ∧
    ¬ keyPathToken <:+: "a 777 b".toList := by
  have h := claim_C8_amended ("a your-gcp-project-id b".toList)
    ("777".toList) ("123".toList)
    (spliceSafe_of_disjoint _ _ (by decide) (by decide) (by decide))
    (spliceSafe_of_disjoint _ _ (by decide) (by decide) (by decide))
    (spliceSafe_of_disjoint _ _ (by decide) (by decide) (by decide))
    ("a 777 b".toList) (by decide)
  exact ⟨by decide, h.1, h.2⟩

end HealthPipe
